import Mathlib

/-!
Shallow embedding of the `usbd-dfu-rt` crate (`src/class.rs`): the DFU
run-time USB class.  Machine integers (`u8`, `u16`) are modelled as `Nat`;
Rust's `saturating_sub` on `u16` is `Nat` truncated subtraction.  The
device-specific `DfuRuntimeOps` trait is modelled as a record of its
capability constants plus, where needed, an explicit `allow` function
parameter; invocations of the `detach()` callback are counted explicitly
(each operation returns the number of times it called `detach`).
-/

/-- Constants from `src/class.rs`. -/
def USB_CLASS_APPLICATION_SPECIFIC : Nat := 0xfe

/-- `DFU_SUBCLASS_FIRMWARE_UPGRADE` from `src/class.rs`. -/
def DFU_SUBCLASS_FIRMWARE_UPGRADE : Nat := 0x01

/-- `DFU_PROTOCOL_RUNTIME` from `src/class.rs`. -/
def DFU_PROTOCOL_RUNTIME : Nat := 0x01

/-- `DFU_TYPE_FUNCTIONAL` from `src/class.rs`. -/
def DFU_TYPE_FUNCTIONAL : Nat := 0x21

/-- `DFU_REQ_DETACH` from `src/class.rs`. -/
def DFU_REQ_DETACH : Nat := 0

/-- `DFU_REQ_GETSTATUS` from `src/class.rs`. -/
def DFU_REQ_GETSTATUS : Nat := 0x03

/-- `enum DfuState` from `src/class.rs` (`repr(u8)`: AppIdle = 0, AppDetach = 1). -/
inductive DfuState where
  | appIdle
  | appDetach
deriving DecidableEq

/-- The `repr(u8)` value of a `DfuState` (`self.state as u8`). -/
def DfuState.toByte : DfuState → Nat
  | DfuState.appIdle => 0
  | DfuState.appDetach => 1

/-- The capability constants of trait `DfuRuntimeOps` in `src/class.rs`
(`WILL_DETACH`, `MANIFESTATION_TOLERANT`, `CAN_DNLOAD`, `CAN_UPLOAD`,
`DETACH_TIMEOUT_MS`, `MAX_TRANSFER_SIZE`). -/
structure DfuRuntimeOps where
  will_detach : Bool
  manifestation_tolerant : Bool
  can_dnload : Bool
  can_upload : Bool
  detach_timeout_ms : Nat
  max_transfer_size : Nat
deriving DecidableEq

/-- The mutable part of `struct DfuRuntimeClass` in `src/class.rs`
(the owned `ops` object is modelled separately). -/
structure DfuRuntimeClass where
  iface : Nat
  timeout : Option Nat
  state : DfuState
deriving DecidableEq

/-- `DfuRuntimeClass::new`: interface number from the allocator,
`timeout: None`, `state: DfuState::AppIdle`. -/
def DfuRuntimeClass.new (iface : Nat) : DfuRuntimeClass :=
  { iface := iface, timeout := none, state := DfuState.appIdle }

/-- `control::RequestType` of the `usb-device` crate. -/
inductive RequestType where
  | Standard
  | Class
  | Vendor
  | Reserved
deriving DecidableEq

/-- `control::Recipient` of the `usb-device` crate. -/
inductive Recipient where
  | Device
  | Interface
  | Endpoint
  | Other
deriving DecidableEq

/-- The fields of `control::Request` read by `src/class.rs`. -/
structure ControlRequest where
  request_type : RequestType
  recipient : Recipient
  index : Nat
  request : Nat
  value : Nat
deriving DecidableEq

/-- Outcome of a control-OUT transfer: `xfer.accept()`, `xfer.reject()`, or
falling through the addressing filter (`return` without touching `xfer`). -/
inductive OutResponse where
  | accepted
  | rejected
  | ignored
deriving DecidableEq

/-- Outcome of a control-IN transfer: `xfer.accept_with(data)`,
`xfer.reject()`, or falling through the addressing filter. -/
inductive InResponse where
  | acceptedWith (data : List Nat)
  | rejected
  | ignored
deriving DecidableEq

/-- `DfuRuntimeClass::tick` (`src/class.rs` lines 116-128): if a timeout is
pending, subtract the elapsed time with `saturating_sub`; on reaching zero
clear the timeout and, when `WILL_DETACH`, call `ops.detach()`.  The second
component counts `detach()` invocations. -/
def DfuRuntimeClass.tick (c : DfuRuntimeClass) (wd : Bool) (elapsed_time_ms : Nat) :
    DfuRuntimeClass × Nat :=
  match c.timeout with
  | none => (c, 0)
  | some timeout =>
    if timeout - elapsed_time_ms = 0 then
      ({ c with timeout := none }, if wd then 1 else 0)
    else
      ({ c with timeout := some (timeout - elapsed_time_ms) }, 0)

/-- `UsbClass::reset` (`src/class.rs` lines 233-238): on bus reset, when
`!WILL_DETACH` and a timeout is pending, clear it and call `ops.detach()`.
The second component counts `detach()` invocations. -/
def DfuRuntimeClass.reset (c : DfuRuntimeClass) (wd : Bool) : DfuRuntimeClass × Nat :=
  if !wd && c.timeout.isSome then
    ({ c with timeout := none }, 1)
  else
    (c, 0)

/-- `UsbClass::control_out` (`src/class.rs` lines 209-231).  Requests not of
Class/Interface type or with a non-matching index fall through untouched.
For `DFU_REQ_DETACH` the source runs `self.timeout = self.ops.allow(req.value)`
and accepts (setting `state = AppDetach`) exactly when the result `is_some`,
rejecting otherwise; the `Option`-match below renders that assignment in both
branches.  Any other request code is rejected. -/
def DfuRuntimeClass.control_out (c : DfuRuntimeClass) (allow : Nat → Option Nat)
    (req : ControlRequest) : DfuRuntimeClass × OutResponse :=
  if ¬(req.request_type = RequestType.Class ∧ req.recipient = Recipient.Interface ∧
        req.index = c.iface) then
    (c, OutResponse.ignored)
  else if req.request = DFU_REQ_DETACH then
    match allow req.value with
    | some t =>
      ({ c with timeout := some t, state := DfuState.appDetach }, OutResponse.accepted)
    | none =>
      ({ c with timeout := none }, OutResponse.rejected)
  else
    (c, OutResponse.rejected)

/-- `UsbClass::control_in` (`src/class.rs` lines 185-207).  Same addressing
filter; `DFU_REQ_GETSTATUS` is answered with the fixed 6-byte status record
`[OK, 0, 0, 0, state as u8, 0]`; any other request code is rejected.  The
source never mutates `self` here, so the state is returned unchanged. -/
def DfuRuntimeClass.control_in (c : DfuRuntimeClass) (req : ControlRequest) :
    DfuRuntimeClass × InResponse :=
  if ¬(req.request_type = RequestType.Class ∧ req.recipient = Recipient.Interface ∧
        req.index = c.iface) then
    (c, InResponse.ignored)
  else if req.request = DFU_REQ_GETSTATUS then
    (c, InResponse.acceptedWith [0, 0, 0, 0, c.state.toByte, 0])
  else
    (c, InResponse.rejected)

/-- `DfuRuntimeClass::dfu_bm_attributes` (`src/class.rs` lines 145-150),
verbatim: note that the source uses `T::CAN_DNLOAD` for bit1 *and* bit0. -/
def DfuRuntimeClass.dfu_bm_attributes (t : DfuRuntimeOps) : Nat :=
  (t.will_detach.toNat <<< 3)
  ||| (t.manifestation_tolerant.toNat <<< 2)
  ||| (t.can_dnload.toNat <<< 1)
  ||| t.can_dnload.toNat

/-- Little-endian bytes of a `u16`, as produced by Rust `u16::to_le_bytes`. -/
def to_le_bytes (v : Nat) : List Nat := [v % 256, v / 256 % 256]

/-- One call made on the `DescriptorWriter` by
`get_configuration_descriptors`: `writer.iad`, `writer.interface` or
`writer.write` with the given arguments. -/
inductive DescriptorCall where
  | iad (first_iface iface_count usb_class usb_sub_class usb_protocol : Nat)
  | interface (iface usb_class usb_sub_class usb_protocol : Nat)
  | write (descriptor_type : Nat) (descriptor : List Nat)
deriving DecidableEq

/-- `UsbClass::get_configuration_descriptors` (`src/class.rs` lines 154-183):
the sequence of writer calls: an IAD spanning 1 interface, an interface
descriptor with the same class triple, and the Run-Time DFU functional
descriptor with attributes, `wDetachTimeOut` LE, `wTransferSize` LE and
`bcdDFUVersion = 0x011a` LE. -/
def DfuRuntimeClass.get_configuration_descriptors (c : DfuRuntimeClass)
    (t : DfuRuntimeOps) : List DescriptorCall :=
  [DescriptorCall.iad c.iface 1 USB_CLASS_APPLICATION_SPECIFIC
      DFU_SUBCLASS_FIRMWARE_UPGRADE DFU_PROTOCOL_RUNTIME,
   DescriptorCall.interface c.iface USB_CLASS_APPLICATION_SPECIFIC
      DFU_SUBCLASS_FIRMWARE_UPGRADE DFU_PROTOCOL_RUNTIME,
   DescriptorCall.write DFU_TYPE_FUNCTIONAL
      ([DfuRuntimeClass.dfu_bm_attributes t]
        ++ to_le_bytes t.detach_timeout_ms
        ++ to_le_bytes t.max_transfer_size
        ++ to_le_bytes 0x011a)]

/-- One invocation of an entry point by the environment: a control-OUT
transfer (with the `allow` hook the `ops` object would use for it), a
control-IN transfer, a bus reset, or a time advance. -/
inductive DfuAction where
  | ctrl_out (allow : Nat → Option Nat) (req : ControlRequest)
  | ctrl_in (req : ControlRequest)
  | bus_reset
  | time (elapsed_time_ms : Nat)

/-- Execute one entry point on a (class state, detach-invocation count)
pair, for a device whose `WILL_DETACH` constant is `wd`. -/
def run1 (wd : Bool) (s : DfuRuntimeClass × Nat) : DfuAction → DfuRuntimeClass × Nat
  | DfuAction.ctrl_out allow req => ((s.1.control_out allow req).1, s.2)
  | DfuAction.ctrl_in req => ((s.1.control_in req).1, s.2)
  | DfuAction.bus_reset => ((s.1.reset wd).1, s.2 + (s.1.reset wd).2)
  | DfuAction.time e => ((s.1.tick wd e).1, s.2 + (s.1.tick wd e).2)

/-- Execute a sequence of entry-point invocations. -/
def runTrace (wd : Bool) (s : DfuRuntimeClass × Nat) (acts : List DfuAction) :
    DfuRuntimeClass × Nat :=
  acts.foldl (run1 wd) s

/-- A capability set distinguishing the download and upload flags:
download supported, upload not supported. -/
def c1FailingOps : DfuRuntimeOps :=
  { will_detach := false, manifestation_tolerant := false,
    can_dnload := true, can_upload := false,
    detach_timeout_ms := 255, max_transfer_size := 2048 }

/-- A runtime state with a countdown already pending. -/
def c3Prior : DfuRuntimeClass :=
  { iface := 0, timeout := some 5, state := DfuState.appDetach }

/-- A DETACH request addressed to interface 0. -/
def c3Req : ControlRequest :=
  { request_type := RequestType.Class, recipient := Recipient.Interface,
    index := 0, request := 0, value := 7 }

/-- C2 counterexample trace: with `WILL_DETACH = false`, a DETACH accepted
with timeout 1 followed by a 1 ms time advance. -/
def c2Trace : List DfuAction :=
  [DfuAction.ctrl_out (fun _ => some 1)
    { request_type := RequestType.Class, recipient := Recipient.Interface,
      index := 0, request := 0, value := 1 },
   DfuAction.time 1]

/-- Trace for the C2 witness: a DETACH accepted with timeout 5. -/
def c2WitnessTrace : List DfuAction :=
  [DfuAction.ctrl_out (fun _ => some 5)
    { request_type := RequestType.Class, recipient := Recipient.Interface,
      index := 0, request := 0, value := 5 }]

/-- First step of the C4 counterexample: DETACH accepted with timeout 5. -/
def c4Detach5 : DfuAction :=
  DfuAction.ctrl_out (fun _ => some 5)
    { request_type := RequestType.Class, recipient := Recipient.Interface,
      index := 0, request := 0, value := 5 }

/-- Second step of the C4 counterexample: DETACH accepted with timeout 100. -/
def c4Detach100 : DfuAction :=
  DfuAction.ctrl_out (fun _ => some 100)
    { request_type := RequestType.Class, recipient := Recipient.Interface,
      index := 0, request := 0, value := 100 }

/-- `control_in` never mutates the class state (the source reads `self.state`
but writes nothing). -/
lemma control_in_fst (c : DfuRuntimeClass) (req : ControlRequest) :
    (c.control_in req).1 = c := by
  unfold DfuRuntimeClass.control_in
  split
  · rfl
  · split
    · rfl
    · rfl

/-- Equation for `tick` when no timeout is pending. -/
lemma tick_of_none (c : DfuRuntimeClass) (wd : Bool) (e : Nat)
    (h : c.timeout = none) : c.tick wd e = (c, 0) := by
  unfold DfuRuntimeClass.tick
  rw [h]

/-- Equation for `tick` when a timeout is pending. -/
lemma tick_of_some (c : DfuRuntimeClass) (wd : Bool) (e : Nat) (T : Nat)
    (h : c.timeout = some T) :
    c.tick wd e =
      if T - e = 0 then
        ({ c with timeout := none }, if wd then 1 else 0)
      else
        ({ c with timeout := some (T - e) }, 0) := by
  unfold DfuRuntimeClass.tick
  rw [h]

/-- C1: the claim states bit0 of the attribute byte equals `can_upload`,
assembled from its own flag.  The source (`src/class.rs` line 149) instead
repeats `T::CAN_DNLOAD` for bit0, so for a capability set with
`can_dnload = true, can_upload = false` the byte is `0b0011`: bit0 is set
although `can_upload` is `false`.  Bits 3, 2, 1 do match their flags. -/
theorem c1_attr_bit0_eval :
    DfuRuntimeClass.dfu_bm_attributes c1FailingOps = 3 ∧
    (DfuRuntimeClass.dfu_bm_attributes c1FailingOps).testBit 0 = true ∧
    c1FailingOps.can_upload = false ∧
    (DfuRuntimeClass.dfu_bm_attributes c1FailingOps).testBit 0 ≠ c1FailingOps.can_upload ∧
    (DfuRuntimeClass.dfu_bm_attributes c1FailingOps).testBit 0 = c1FailingOps.can_dnload := by
  decide

/-- C3 counterexample: from a state with `pending_timeout_ms = some 5`, a
DETACH whose `allow` hook returns `none` is rejected, but the pending
timeout does *not* keep its prior value: the source executes
`self.timeout = self.ops.allow(req.value)` unconditionally, clearing it. -/
theorem c3_reject_counterexample :
    (c3Prior.control_out (fun _ => none) c3Req).2 = OutResponse.rejected ∧
    c3Prior.timeout = some 5 ∧
    (c3Prior.control_out (fun _ => none) c3Req).1.timeout = none ∧
    (c3Prior.control_out (fun _ => none) c3Req).1.timeout ≠ c3Prior.timeout := by
  decide

/-- C3 (amended): a DETACH whose `allow` hook returns `None` is rejected and
leaves `dfu_state` and the interface number unchanged, but sets
`pending_timeout_ms` to `None` (cancelling any pending countdown). -/
theorem c3_reject_amended (c : DfuRuntimeClass) (allow : Nat → Option Nat)
    (req : ControlRequest)
    (haddr : req.request_type = RequestType.Class ∧ req.recipient = Recipient.Interface ∧
      req.index = c.iface)
    (hreq : req.request = DFU_REQ_DETACH)
    (hallow : allow req.value = none) :
    c.control_out allow req = ({ c with timeout := none }, OutResponse.rejected) := by
  simp [DfuRuntimeClass.control_out, haddr.1, haddr.2.1, haddr.2.2, hreq, hallow]

/-- Witness for `c3_reject_amended` at a concrete pending state. -/
theorem c3_reject_amended_witness :
    ({ iface := 1, timeout := some 9, state := DfuState.appDetach } : DfuRuntimeClass).control_out
        (fun _ => none)
        { request_type := RequestType.Class, recipient := Recipient.Interface,
          index := 1, request := 0, value := 9 }
      = ({ iface := 1, timeout := none, state := DfuState.appDetach }, OutResponse.rejected) :=
  c3_reject_amended { iface := 1, timeout := some 9, state := DfuState.appDetach }
    (fun _ => none)
    { request_type := RequestType.Class, recipient := Recipient.Interface,
      index := 1, request := 0, value := 9 }
    ⟨rfl, rfl, rfl⟩ rfl rfl

/-- C6: `reset` with `WILL_DETACH = false` and a pending timeout clears the
timeout and invokes `detach()` exactly once; with `WILL_DETACH = true` it is
a no-op (state unchanged, no invocation) regardless of the pending state. -/
theorem c6_bus_reset (c : DfuRuntimeClass) :
    (c.timeout.isSome = true → c.reset false = ({ c with timeout := none }, 1)) ∧
    c.reset true = (c, 0) := by
  constructor
  · intro h
    simp [DfuRuntimeClass.reset, h]
  · simp [DfuRuntimeClass.reset]

/-- Witness for `c6_bus_reset` at a concrete pending state. -/
theorem c6_bus_reset_witness :
    ({ iface := 0, timeout := some 7, state := DfuState.appDetach } : DfuRuntimeClass).reset false
        = ({ iface := 0, timeout := none, state := DfuState.appDetach }, 1) ∧
    ({ iface := 0, timeout := some 7, state := DfuState.appDetach } : DfuRuntimeClass).reset true
        = ({ iface := 0, timeout := some 7, state := DfuState.appDetach }, 0) :=
  ⟨(c6_bus_reset { iface := 0, timeout := some 7, state := DfuState.appDetach }).1 rfl,
   (c6_bus_reset { iface := 0, timeout := some 7, state := DfuState.appDetach }).2⟩

/-- C7: a GETSTATUS request addressed to this interface is answered with
exactly the 6 bytes `[OK = 0, 0, 0, 0, dfu_state as u8, 0]` (AppIdle = 0,
AppDetach = 1) and changes neither `dfu_state` nor `pending_timeout_ms`
(the whole class state is returned unchanged). -/
theorem c7_getstatus (c : DfuRuntimeClass) (req : ControlRequest)
    (haddr : req.request_type = RequestType.Class ∧ req.recipient = Recipient.Interface ∧
      req.index = c.iface)
    (hreq : req.request = DFU_REQ_GETSTATUS) :
    c.control_in req = (c, InResponse.acceptedWith [0, 0, 0, 0, c.state.toByte, 0]) ∧
    [0, 0, 0, 0, c.state.toByte, 0].length = 6 ∧
    DfuState.toByte DfuState.appIdle = 0 ∧
    DfuState.toByte DfuState.appDetach = 1 := by
  refine ⟨?_, rfl, rfl, rfl⟩
  simp [DfuRuntimeClass.control_in, haddr.1, haddr.2.1, haddr.2.2, hreq]

/-- Witness for `c7_getstatus` at a concrete state and request. -/
theorem c7_getstatus_witness :
    ({ iface := 2, timeout := some 4, state := DfuState.appDetach } : DfuRuntimeClass).control_in
        { request_type := RequestType.Class, recipient := Recipient.Interface,
          index := 2, request := 3, value := 0 }
      = ({ iface := 2, timeout := some 4, state := DfuState.appDetach },
         InResponse.acceptedWith [0, 0, 0, 0, 1, 0]) ∧
    ([0, 0, 0, 0, (1 : Nat), 0] : List Nat).length = 6 ∧
    DfuState.toByte DfuState.appIdle = 0 ∧
    DfuState.toByte DfuState.appDetach = 1 :=
  c7_getstatus { iface := 2, timeout := some 4, state := DfuState.appDetach }
    { request_type := RequestType.Class, recipient := Recipient.Interface,
      index := 2, request := 3, value := 0 }
    ⟨rfl, rfl, rfl⟩ rfl

/-- C8: a request whose type is not Class, or whose recipient is not
Interface, or whose index differs from this instance's interface number,
falls through both handlers untouched: neither accepted nor rejected, and
the class state (hence `dfu_state` and `pending_timeout_ms`) is unchanged. -/
theorem c8_address_filter (c : DfuRuntimeClass) (allow : Nat → Option Nat)
    (req : ControlRequest)
    (h : req.request_type ≠ RequestType.Class ∨ req.recipient ≠ Recipient.Interface ∨
      req.index ≠ c.iface) :
    c.control_out allow req = (c, OutResponse.ignored) ∧
    c.control_in req = (c, InResponse.ignored) := by
  have hna : ¬(req.request_type = RequestType.Class ∧ req.recipient = Recipient.Interface ∧
      req.index = c.iface) := by tauto
  constructor
  · unfold DfuRuntimeClass.control_out
    rw [if_pos hna]
  · unfold DfuRuntimeClass.control_in
    rw [if_pos hna]

/-- Witness for `c8_address_filter`: a Vendor-type DETACH request is ignored. -/
theorem c8_address_filter_witness :
    ({ iface := 0, timeout := some 3, state := DfuState.appDetach } : DfuRuntimeClass).control_out
        (fun t => some t)
        { request_type := RequestType.Vendor, recipient := Recipient.Interface,
          index := 0, request := 0, value := 1 }
      = ({ iface := 0, timeout := some 3, state := DfuState.appDetach }, OutResponse.ignored) ∧
    ({ iface := 0, timeout := some 3, state := DfuState.appDetach } : DfuRuntimeClass).control_in
        { request_type := RequestType.Vendor, recipient := Recipient.Interface,
          index := 0, request := 0, value := 1 }
      = ({ iface := 0, timeout := some 3, state := DfuState.appDetach }, InResponse.ignored) :=
  c8_address_filter { iface := 0, timeout := some 3, state := DfuState.appDetach }
    (fun t => some t)
    { request_type := RequestType.Vendor, recipient := Recipient.Interface,
      index := 0, request := 0, value := 1 }
    (Or.inl (fun h => RequestType.noConfusion h))

/-- C9: descriptor generation emits, in order, an IAD spanning exactly 1
interface with class 0xFE / subclass 0x01 / protocol 0x01, an interface
descriptor with the same triple, and a type-0x21 functional descriptor whose
7-byte body is the attribute byte, `detach_timeout_ms` LE, `max_transfer_size`
LE, and the fixed version 0x011a LE (`[0x1a, 0x01]`).  The `u16` ranges of
the two configurable values are hypotheses. -/
theorem c9_descriptors (c : DfuRuntimeClass) (t : DfuRuntimeOps)
    (h1 : t.detach_timeout_ms < 65536) (h2 : t.max_transfer_size < 65536) :
    c.get_configuration_descriptors t =
      [DescriptorCall.iad c.iface 1 0xfe 0x01 0x01,
       DescriptorCall.interface c.iface 0xfe 0x01 0x01,
       DescriptorCall.write 0x21
         [DfuRuntimeClass.dfu_bm_attributes t,
          t.detach_timeout_ms % 256, t.detach_timeout_ms / 256,
          t.max_transfer_size % 256, t.max_transfer_size / 256,
          0x1a, 0x01]] := by
  have e1 : t.detach_timeout_ms / 256 % 256 = t.detach_timeout_ms / 256 := by omega
  have e2 : t.max_transfer_size / 256 % 256 = t.max_transfer_size / 256 := by omega
  simp [DfuRuntimeClass.get_configuration_descriptors, to_le_bytes,
    USB_CLASS_APPLICATION_SPECIFIC, DFU_SUBCLASS_FIRMWARE_UPGRADE, DFU_PROTOCOL_RUNTIME,
    DFU_TYPE_FUNCTIONAL, e1, e2]

/-- Witness for `c9_descriptors` at the default capability constants. -/
theorem c9_descriptors_witness :
    (DfuRuntimeClass.new 0).get_configuration_descriptors
        { will_detach := true, manifestation_tolerant := false,
          can_dnload := true, can_upload := true,
          detach_timeout_ms := 255, max_transfer_size := 2048 }
      = [DescriptorCall.iad 0 1 0xfe 0x01 0x01,
         DescriptorCall.interface 0 0xfe 0x01 0x01,
         DescriptorCall.write 0x21 [0xb, 255, 0, 0, 8, 0x1a, 0x01]] := by
  have h := c9_descriptors (DfuRuntimeClass.new 0)
    { will_detach := true, manifestation_tolerant := false,
      can_dnload := true, can_upload := true,
      detach_timeout_ms := 255, max_transfer_size := 2048 }
    (by decide) (by decide)
  simpa using h

/-- Each entry point preserves the one-directional invariant: a pending
timeout implies `dfu_state = AppDetach`. -/
lemma run1_pending_appDetach (wd : Bool) (s : DfuRuntimeClass × Nat) (a : DfuAction)
    (h : s.1.timeout ≠ none → s.1.state = DfuState.appDetach) :
    (run1 wd s a).1.timeout ≠ none → (run1 wd s a).1.state = DfuState.appDetach := by
  cases a with
  | ctrl_out allow req =>
    simp only [run1]
    unfold DfuRuntimeClass.control_out
    by_cases haddr : req.request_type = RequestType.Class ∧
        req.recipient = Recipient.Interface ∧ req.index = s.1.iface
    · rw [if_neg (not_not_intro haddr)]
      by_cases hreq : req.request = DFU_REQ_DETACH
      · rw [if_pos hreq]
        cases hal : allow req.value with
        | some t => intro _; rfl
        | none => intro hne; exact absurd rfl hne
      · rw [if_neg hreq]
        exact h
    · rw [if_pos haddr]
      exact h
  | ctrl_in req =>
    simp only [run1, control_in_fst]
    exact h
  | bus_reset =>
    simp only [run1]
    unfold DfuRuntimeClass.reset
    by_cases hc : (!wd && s.1.timeout.isSome) = true
    · rw [if_pos hc]
      intro hne
      exact absurd rfl hne
    · rw [if_neg hc]
      exact h
  | time e =>
    simp only [run1]
    cases hT : s.1.timeout with
    | none =>
      rw [tick_of_none s.1 wd e hT]
      exact h
    | some T =>
      have hstate : s.1.state = DfuState.appDetach := h (by simp [hT])
      rw [tick_of_some s.1 wd e T hT]
      by_cases hz : T - e = 0
      · rw [if_pos hz]
        intro _
        exact hstate
      · rw [if_neg hz]
        intro _
        exact hstate

/-- Along any trace, a pending timeout implies `dfu_state = AppDetach`. -/
lemma runTrace_pending_appDetach (wd : Bool) (acts : List DfuAction)
    (s : DfuRuntimeClass × Nat)
    (h : s.1.timeout ≠ none → s.1.state = DfuState.appDetach) :
    (runTrace wd s acts).1.timeout ≠ none →
      (runTrace wd s acts).1.state = DfuState.appDetach := by
  induction acts generalizing s with
  | nil => exact h
  | cons a acts ih => exact ih (run1 wd s a) (run1_pending_appDetach wd s a h)

/-- C2 counterexample: with `will_detach = false`, after an accepted DETACH
and expiry of the countdown, the reachable state has `dfu_state = AppDetach`,
`pending_timeout_ms = none` and `detach()` never invoked — refuting the
claimed equivalence (`AppDetach` iff pending timeout, or `will_detach` with
`detach()` already invoked). -/
theorem c2_invariant_counterexample :
    (runTrace false (DfuRuntimeClass.new 0, 0) c2Trace).1.state = DfuState.appDetach ∧
    (runTrace false (DfuRuntimeClass.new 0, 0) c2Trace).1.timeout = none ∧
    (runTrace false (DfuRuntimeClass.new 0, 0) c2Trace).2 = 0 ∧
    ¬((runTrace false (DfuRuntimeClass.new 0, 0) c2Trace).1.state = DfuState.appDetach ↔
      ((runTrace false (DfuRuntimeClass.new 0, 0) c2Trace).1.timeout ≠ none ∨
        (false = true ∧ 0 < (runTrace false (DfuRuntimeClass.new 0, 0) c2Trace).2))) := by
  decide

/-- C2 (amended): in every state reachable from the initial state by the four
entry points, a pending timeout implies `dfu_state = AppDetach`; the converse
direction of the claimed equivalence fails (see the counterexample). -/
theorem c2_invariant_amended (wd : Bool) (iface : Nat) (acts : List DfuAction)
    (h : (runTrace wd (DfuRuntimeClass.new iface, 0) acts).1.timeout ≠ none) :
    (runTrace wd (DfuRuntimeClass.new iface, 0) acts).1.state = DfuState.appDetach :=
  runTrace_pending_appDetach wd acts (DfuRuntimeClass.new iface, 0)
    (fun hne => absurd rfl hne) h

/-- Witness for `c2_invariant_amended` on a concrete trace. -/
theorem c2_invariant_amended_witness :
    (runTrace false (DfuRuntimeClass.new 0, 0) c2WitnessTrace).1.state = DfuState.appDetach :=
  c2_invariant_amended false 0 c2WitnessTrace (by decide)

/-- C4 counterexample: a second accepted DETACH is a single step that raises
`pending_timeout_ms` from `some 5` to `some 100`, refuting the claim that no
single step ever makes it larger. -/
theorem c4_monotone_counterexample :
    (runTrace true (DfuRuntimeClass.new 0, 0) [c4Detach5]).1.timeout = some 5 ∧
    runTrace true (DfuRuntimeClass.new 0, 0) [c4Detach5, c4Detach100]
      = run1 true (runTrace true (DfuRuntimeClass.new 0, 0) [c4Detach5]) c4Detach100 ∧
    (runTrace true (DfuRuntimeClass.new 0, 0) [c4Detach5, c4Detach100]).1.timeout = some 100 ∧
    5 < 100 := by
  decide

/-- C4 (amended): a step that is not an accepted DETACH never increases
`pending_timeout_ms`: if it is `some v` afterwards, it was `some w` with
`v ≤ w` before.  (An accepted DETACH may set it to any value returned by
the `allow` hook, including a larger one.) -/
theorem c4_monotone_amended (wd : Bool) (s : DfuRuntimeClass × Nat) (a : DfuAction)
    (hna : ∀ allow req, a = DfuAction.ctrl_out allow req →
      (s.1.control_out allow req).2 ≠ OutResponse.accepted) :
    ∀ v, (run1 wd s a).1.timeout = some v → ∃ w, s.1.timeout = some w ∧ v ≤ w := by
  intro v hv
  cases a with
  | ctrl_out allow req =>
    have hrej := hna allow req rfl
    simp only [run1] at hv
    unfold DfuRuntimeClass.control_out at hv hrej
    by_cases haddr : req.request_type = RequestType.Class ∧
        req.recipient = Recipient.Interface ∧ req.index = s.1.iface
    · rw [if_neg (not_not_intro haddr)] at hv hrej
      by_cases hreq : req.request = DFU_REQ_DETACH
      · rw [if_pos hreq] at hv hrej
        cases hal : allow req.value with
        | some t =>
          rw [hal] at hrej
          exact absurd rfl hrej
        | none =>
          rw [hal] at hv
          exact absurd hv (by simp)
      · rw [if_neg hreq] at hv
        exact ⟨v, hv, le_refl v⟩
    · rw [if_pos haddr] at hv
      exact ⟨v, hv, le_refl v⟩
  | ctrl_in req =>
    simp only [run1, control_in_fst] at hv
    exact ⟨v, hv, le_refl v⟩
  | bus_reset =>
    simp only [run1] at hv
    unfold DfuRuntimeClass.reset at hv
    by_cases hc : (!wd && s.1.timeout.isSome) = true
    · rw [if_pos hc] at hv
      exact absurd hv (by simp)
    · rw [if_neg hc] at hv
      exact ⟨v, hv, le_refl v⟩
  | time e =>
    simp only [run1] at hv
    cases hT : s.1.timeout with
    | none =>
      rw [tick_of_none s.1 wd e hT] at hv
      have hv2 : s.1.timeout = some v := hv
      rw [hT] at hv2
      exact absurd hv2 (by simp)
    | some T =>
      rw [tick_of_some s.1 wd e T hT] at hv
      by_cases hz : T - e = 0
      · rw [if_pos hz] at hv
        exact absurd hv (by simp)
      · rw [if_neg hz] at hv
        have hv2 : T - e = v := by simpa using hv
        exact ⟨T, rfl, by omega⟩

/-- Witness for `c4_monotone_amended`: a 1 ms advance from `some 5`
leaves `some 4 ≤ some 5`. -/
theorem c4_monotone_amended_witness :
    ∃ w, ({ iface := 0, timeout := some 5, state := DfuState.appDetach } :
        DfuRuntimeClass).timeout = some w ∧ 4 ≤ w :=
  c4_monotone_amended true
    ({ iface := 0, timeout := some 5, state := DfuState.appDetach }, 0)
    (DfuAction.time 1)
    (fun _ _ h => DfuAction.noConfusion h) 4 rfl

/-- Once the timeout is cleared, further time advances change nothing. -/
lemma runTicks_of_none (wd : Bool) (es : List Nat) (s : DfuRuntimeClass × Nat)
    (h : s.1.timeout = none) :
    runTrace wd s (es.map DfuAction.time) = s := by
  induction es generalizing s with
  | nil => rfl
  | cons e es ih =>
    have h1 : run1 wd s (DfuAction.time e) = s := by
      simp only [run1, tick_of_none s.1 wd e h]
      simp
    calc runTrace wd s ((e :: es).map DfuAction.time)
        = runTrace wd (run1 wd s (DfuAction.time e)) (es.map DfuAction.time) := rfl
      _ = runTrace wd s (es.map DfuAction.time) := by rw [h1]
      _ = s := ih s h

/-- Time advances summing to less than the pending timeout `T` leave the
timeout at `some (T - sum)`, the rest of the state untouched, and invoke
`detach()` never. -/
lemma runTicks_under (wd : Bool) (es : List Nat) :
    ∀ (T : Nat) (c : DfuRuntimeClass) (d : Nat), c.timeout = some T → es.sum < T →
    runTrace wd (c, d) (es.map DfuAction.time) =
      ({ c with timeout := some (T - es.sum) }, d) := by
  induction es with
  | nil =>
    intro T c d hc hlt
    obtain ⟨i, tm, st⟩ := c
    have hc2 : tm = some T := hc
    subst hc2
    simp only [List.map_nil, List.sum_nil, Nat.sub_zero]
    rfl
  | cons e es ih =>
    intro T c d hc hlt
    have hsum : e + es.sum < T := by simpa using hlt
    have hz : ¬(T - e = 0) := by omega
    have hstep : run1 wd (c, d) (DfuAction.time e) =
        ({ c with timeout := some (T - e) }, d) := by
      simp only [run1, tick_of_some c wd e T hc]
      rw [if_neg hz]
      simp
    calc runTrace wd (c, d) ((e :: es).map DfuAction.time)
        = runTrace wd (run1 wd (c, d) (DfuAction.time e)) (es.map DfuAction.time) := rfl
      _ = runTrace wd ({ c with timeout := some (T - e) }, d) (es.map DfuAction.time) := by
          rw [hstep]
      _ = ({ c with timeout := some (T - e - es.sum) }, d) :=
          ih (T - e) { c with timeout := some (T - e) } d rfl (by omega)
      _ = ({ c with timeout := some (T - (e + es.sum)) }, d) := by
          rw [Nat.sub_sub]

/-- Time advances summing to exactly the pending timeout `T > 0` clear the
timeout and invoke `detach()` exactly `if wd then 1 else 0` times in total. -/
lemma runTicks_exact (wd : Bool) (es : List Nat) :
    ∀ (T : Nat) (c : DfuRuntimeClass) (d : Nat), c.timeout = some T → 0 < T → es.sum = T →
    runTrace wd (c, d) (es.map DfuAction.time) =
      ({ c with timeout := none }, d + if wd then 1 else 0) := by
  induction es with
  | nil =>
    intro T c d hc hT hsum
    exfalso
    simp only [List.sum_nil] at hsum
    omega
  | cons e es ih =>
    intro T c d hc hT hsum
    have hsum2 : e + es.sum = T := by simpa using hsum
    by_cases hz : T - e = 0
    · have hstep : run1 wd (c, d) (DfuAction.time e) =
          ({ c with timeout := none }, d + if wd then 1 else 0) := by
        simp only [run1, tick_of_some c wd e T hc]
        rw [if_pos hz]
      calc runTrace wd (c, d) ((e :: es).map DfuAction.time)
          = runTrace wd (run1 wd (c, d) (DfuAction.time e)) (es.map DfuAction.time) := rfl
        _ = runTrace wd ({ c with timeout := none }, d + if wd then 1 else 0)
              (es.map DfuAction.time) := by rw [hstep]
        _ = ({ c with timeout := none }, d + if wd then 1 else 0) :=
            runTicks_of_none wd es _ rfl
    · have hstep : run1 wd (c, d) (DfuAction.time e) =
          ({ c with timeout := some (T - e) }, d) := by
        simp only [run1, tick_of_some c wd e T hc]
        rw [if_neg hz]
        simp
      calc runTrace wd (c, d) ((e :: es).map DfuAction.time)
          = runTrace wd (run1 wd (c, d) (DfuAction.time e)) (es.map DfuAction.time) := rfl
        _ = runTrace wd ({ c with timeout := some (T - e) }, d) (es.map DfuAction.time) := by
            rw [hstep]
        _ = ({ c with timeout := none }, d + if wd then 1 else 0) :=
            ih (T - e) { c with timeout := some (T - e) } d rfl (by omega) (by omega)

/-- C5: from a state with pending timeout `T > 0` (as left by an accepted
DETACH), time advances summing to exactly `T` clear the timeout and invoke
`detach()` exactly once when `will_detach = true` and never when
`will_detach = false`, with no invocation on any proper initial segment
whose sum is still below `T`; advances summing to less than `T` invoke
nothing and leave `pending_timeout_ms = some (T - sum)`. -/
theorem c5_countdown (wd : Bool) (T : Nat) (es : List Nat) (c : DfuRuntimeClass)
    (hT : 0 < T) (hc : c.timeout = some T) :
    (es.sum = T →
      (runTrace wd (c, 0) (es.map DfuAction.time)).2 = (if wd then 1 else 0) ∧
      (runTrace wd (c, 0) (es.map DfuAction.time)).1.timeout = none ∧
      (∀ p q : List Nat, es = p ++ q → p.sum < T →
        (runTrace wd (c, 0) (p.map DfuAction.time)).2 = 0)) ∧
    (es.sum < T →
      (runTrace wd (c, 0) (es.map DfuAction.time)).2 = 0 ∧
      (runTrace wd (c, 0) (es.map DfuAction.time)).1.timeout = some (T - es.sum)) := by
  constructor
  · intro hsum
    rw [runTicks_exact wd es T c 0 hc hT hsum]
    refine ⟨by simp, rfl, ?_⟩
    intro p q hpq hplt
    rw [runTicks_under wd p T c 0 hc hplt]
  · intro hlt
    rw [runTicks_under wd es T c 0 hc hlt]
    exact ⟨rfl, rfl⟩

/-- Witness for `c5_countdown`: timeout 3, advances [1, 2], `will_detach`. -/
theorem c5_countdown_witness :
    ((0 : Nat) < 3 ∧
      ({ iface := 0, timeout := some 3, state := DfuState.appDetach } :
        DfuRuntimeClass).timeout = some 3) ∧
    ((([1, 2] : List Nat).sum = 3 →
      (runTrace true ({ iface := 0, timeout := some 3, state := DfuState.appDetach }, 0)
        ([1, 2].map DfuAction.time)).2 = (if true then 1 else 0) ∧
      (runTrace true ({ iface := 0, timeout := some 3, state := DfuState.appDetach }, 0)
        ([1, 2].map DfuAction.time)).1.timeout = none ∧
      (∀ p q : List Nat, [1, 2] = p ++ q → p.sum < 3 →
        (runTrace true ({ iface := 0, timeout := some 3, state := DfuState.appDetach }, 0)
          (p.map DfuAction.time)).2 = 0)) ∧
    (([1, 2] : List Nat).sum < 3 →
      (runTrace true ({ iface := 0, timeout := some 3, state := DfuState.appDetach }, 0)
        ([1, 2].map DfuAction.time)).2 = 0 ∧
      (runTrace true ({ iface := 0, timeout := some 3, state := DfuState.appDetach }, 0)
        ([1, 2].map DfuAction.time)).1.timeout = some (3 - ([1, 2] : List Nat).sum))) :=
  ⟨⟨by decide, rfl⟩,
   c5_countdown true 3 [1, 2]
     { iface := 0, timeout := some 3, state := DfuState.appDetach } (by decide) rfl⟩

/-- C10: a DETACH addressed to this interface whose `allow` hook returns
`Some 0` is acknowledged, sets `dfu_state = AppDetach` and
`pending_timeout_ms = some 0`, and does not invoke `detach()` during the
request; the very next `tick`, with any elapsed value (including 0), clears
the pending timeout and invokes `detach()` exactly once when
`will_detach = true` and never when `will_detach = false`. -/
theorem c10_zero_timeout (wd : Bool) (c : DfuRuntimeClass) (allow : Nat → Option Nat)
    (req : ControlRequest) (e : Nat)
    (haddr : req.request_type = RequestType.Class ∧ req.recipient = Recipient.Interface ∧
      req.index = c.iface)
    (hreq : req.request = DFU_REQ_DETACH)
    (hallow : allow req.value = some 0) :
    (c.control_out allow req).2 = OutResponse.accepted ∧
    (c.control_out allow req).1.state = DfuState.appDetach ∧
    (c.control_out allow req).1.timeout = some 0 ∧
    (runTrace wd (c, 0) [DfuAction.ctrl_out allow req]).2 = 0 ∧
    (runTrace wd (c, 0) [DfuAction.ctrl_out allow req, DfuAction.time e]).1.timeout = none ∧
    (runTrace wd (c, 0) [DfuAction.ctrl_out allow req, DfuAction.time e]).2 =
      (if wd then 1 else 0) := by
  have hco : c.control_out allow req =
      ({ c with timeout := some 0, state := DfuState.appDetach }, OutResponse.accepted) := by
    simp [DfuRuntimeClass.control_out, haddr.1, haddr.2.1, haddr.2.2, hreq, hallow]
  have htrace1 : runTrace wd (c, 0) [DfuAction.ctrl_out allow req] =
      ({ c with timeout := some 0, state := DfuState.appDetach }, 0) := by
    show ((c.control_out allow req).1, 0) = _
    rw [hco]
  have htick : ({ c with timeout := some 0, state := DfuState.appDetach } :
      DfuRuntimeClass).tick wd e =
      ({ c with timeout := none, state := DfuState.appDetach }, if wd then 1 else 0) := by
    rw [tick_of_some _ wd e 0 rfl]
    simp
  have htrace2 : runTrace wd (c, 0) [DfuAction.ctrl_out allow req, DfuAction.time e] =
      ({ c with timeout := none, state := DfuState.appDetach }, if wd then 1 else 0) := by
    show run1 wd (run1 wd (c, 0) (DfuAction.ctrl_out allow req)) (DfuAction.time e) = _
    have h1 : run1 wd (c, 0) (DfuAction.ctrl_out allow req) =
        ({ c with timeout := some 0, state := DfuState.appDetach }, 0) := by
      show ((c.control_out allow req).1, 0) = _
      rw [hco]
    rw [h1]
    simp only [run1, htick]
    simp
  refine ⟨by rw [hco], by rw [hco], by rw [hco], by rw [htrace1], by rw [htrace2], by rw [htrace2]⟩

/-- Witness for `c10_zero_timeout` at a concrete state and request. -/
theorem c10_zero_timeout_witness :
    ((DfuRuntimeClass.new 0).control_out (fun t => some (t - 5))
        { request_type := RequestType.Class, recipient := Recipient.Interface,
          index := 0, request := 0, value := 5 }).2 = OutResponse.accepted ∧
    ((DfuRuntimeClass.new 0).control_out (fun t => some (t - 5))
        { request_type := RequestType.Class, recipient := Recipient.Interface,
          index := 0, request := 0, value := 5 }).1.state = DfuState.appDetach ∧
    ((DfuRuntimeClass.new 0).control_out (fun t => some (t - 5))
        { request_type := RequestType.Class, recipient := Recipient.Interface,
          index := 0, request := 0, value := 5 }).1.timeout = some 0 ∧
    (runTrace true (DfuRuntimeClass.new 0, 0)
        [DfuAction.ctrl_out (fun t => some (t - 5))
          { request_type := RequestType.Class, recipient := Recipient.Interface,
            index := 0, request := 0, value := 5 }]).2 = 0 ∧
    (runTrace true (DfuRuntimeClass.new 0, 0)
        [DfuAction.ctrl_out (fun t => some (t - 5))
          { request_type := RequestType.Class, recipient := Recipient.Interface,
            index := 0, request := 0, value := 5 },
         DfuAction.time 0]).1.timeout = none ∧
    (runTrace true (DfuRuntimeClass.new 0, 0)
        [DfuAction.ctrl_out (fun t => some (t - 5))
          { request_type := RequestType.Class, recipient := Recipient.Interface,
            index := 0, request := 0, value := 5 },
         DfuAction.time 0]).2 = (if true then 1 else 0) :=
  c10_zero_timeout true (DfuRuntimeClass.new 0) (fun t => some (t - 5))
    { request_type := RequestType.Class, recipient := Recipient.Interface,
      index := 0, request := 0, value := 5 }
    0 ⟨rfl, rfl, rfl⟩ rfl rfl
